import Mathlib

/-!
Shallow embedding of the `/generate-zip` media-aggregation pipeline of the
ffmpeg-normalizer repository.

The repository ships three variants of the pipeline:
 * the main Express handler in src/server.js (JSZip in memory, batch download
   tolerant of per-asset failures, single-attempt upload);
 * an Express router variant concatenated at the end of src/server.js
   (`router.post`, `generateR2SignedUrl`, a `processBatch` that throws on the
   first failed download);
 * the streaming variant in src/unnamed/part_000 (`archiver` to a temp zip
   file, `downloadToFile`, `uploadZipToR2WithRetry`).

Network and filesystem effects are modelled by oracles: a fetch environment
maps each asset to the terminal event of its HTTP GET, and an upload
environment maps each attempt number to that attempt's outcome.  Concurrency
inside one batch is denoted positionally: `Promise.all(batch.map(f))` settles
to the list of the per-item settlements in the batch's own order, which is
exactly `batch.map f` here.  Cryptographic primitives (HMAC-SHA256, SHA-256,
UTF-8 encoding, percent-encoding) are opaque external collaborators and are
passed in as function parameters.
-/

namespace FfmpegNormalizer

/-- Bytes of a downloaded or uploaded file, modelled as a list of byte values. -/
abbrev Buffer := List Nat

/-- One element of the request's `videos` array: `{ filename, r2SignedUrl }`. -/
structure Video where
  filename : String
  r2SignedUrl : String
deriving DecidableEq

/-- The character class `[A-Za-z0-9._-]` kept by the sanitization regex in
`video.filename.replace(/[^a-zA-Z0-9._-]/g, '_')`. -/
def allowedChar (c : Char) : Bool :=
  (decide ('a' ≤ c) && decide (c ≤ 'z')) || (decide ('A' ≤ c) && decide (c ≤ 'Z')) ||
    (decide ('0' ≤ c) && decide (c ≤ '9')) || c == '.' || c == '_' || c == '-'

/-- One character's image under the sanitization regex. -/
def sanitizeChar (c : Char) : Char :=
  if allowedChar c then c else '_'

/-- `filename.replace(/[^a-zA-Z0-9._-]/g, '_')` (src/server.js line 381 and
line 628, src/unnamed/part_000 line 447): every character outside the class is
replaced by an underscore. -/
def cleanFilename (s : String) : String :=
  ⟨s.data.map sanitizeChar⟩

/-- Character-list core of JS `String.prototype.startsWith`. -/
def charsStartWith : List Char → List Char → Bool
  | _, [] => true
  | [], _ :: _ => false
  | c :: cs, p :: ps => c == p && charsStartWith cs ps

/-- JS `name.startsWith(p)` on the model's strings. -/
def strStartsWith (s p : String) : Bool :=
  charsStartWith s.data p.data

/-- Character-list core of JS `String.prototype.includes`. -/
def charsContain (s pat : List Char) : Bool :=
  match s with
  | [] => pat.isEmpty
  | _ :: t => charsStartWith s pat || charsContain t pat

/-- JS `msg.includes(pat)` on the model's strings. -/
def strIncludes (s pat : String) : Bool :=
  charsContain s.data pat.data

/-- JS `s.slice(0, n)`. -/
def strTake (n : Nat) (s : String) : String :=
  ⟨s.data.take n⟩

/-- The terminal network event of one HTTP GET issued for an asset: the request
errors out before a response, or a response with a status code and a body
arrives, or the download timer fires first. -/
inductive FetchOutcome where
  | connectError (msg : String)
  | response (status : Nat) (body : Buffer)
  | timeout
deriving DecidableEq

/-- The per-asset failure taxonomy of the fetchers: request (network/DNS)
error, non-success HTTP status (the code is captured), or elapsed timeout. -/
inductive FetchError where
  | network (msg : String)
  | httpStatus (status : Nat)
  | timeout
deriving DecidableEq

/-- Models `downloadVideoWithTimeout` (src/server.js lines 295-312 and
581-611) and `downloadToFile` (src/unnamed/part_000 lines 271-324): the
promise rejects with `HTTP <status>` whenever `response.statusCode !== 200`,
rejects with the request's error on an `error` event, rejects with
`Download timeout` when the timer fires, and resolves with the body bytes
only on a status-200 response. -/
def downloadVideoWithTimeout (o : FetchOutcome) : Except FetchError Buffer :=
  match o with
  | .connectError msg => .error (.network msg)
  | .response status body =>
      if status ≠ 200 then .error (.httpStatus status) else .ok body
  | .timeout => .error .timeout

/-- One settled element of a batch: the JS object `{success: true, video,
buffer/tempPath}` or `{success: false, video, error}`. -/
inductive DownloadResult where
  | ok (video : Video) (buffer : Buffer)
  | err (video : Video) (error : FetchError)
deriving DecidableEq

/-- The `success` flag of a settled download. -/
def DownloadResult.isSuccess : DownloadResult → Bool
  | .ok _ _ => true
  | .err _ _ => false

/-- The `video` field of a settled download. -/
def DownloadResult.videoOf : DownloadResult → Video
  | .ok v _ => v
  | .err v _ => v

/-- The downloaded bytes of a settled download (successes only have them; the
accessor is only ever applied to successes). -/
def DownloadResult.bufferOf : DownloadResult → Buffer
  | .ok _ b => b
  | .err _ _ => []

/-- One item of a batch map: the `try { download } catch (error) { return
{success: false, ...} }` wrapper of src/server.js lines 323-331 and
src/unnamed/part_000 lines 405-418 — a failed fetch settles as a failure
result and is never thrown past the batch. -/
def fetchVideo (env : Video → FetchOutcome) (v : Video) : DownloadResult :=
  match downloadVideoWithTimeout (env v) with
  | .ok b => .ok v b
  | .error e => .err v e

/-- Fuel-indexed core of `batches`: structural recursion on `fuel`, which the
wrapper instantiates with the list's length so the second pattern (fuel
exhausted on a nonempty list) is never reached from `batches`. -/
def batchesGo (B : Nat) : Nat → List α → List (List α)
  | _, [] => []
  | 0, _ :: _ => []
  | fuel + 1, x :: xs => (x :: xs.take (B - 1)) :: batchesGo B fuel (xs.drop (B - 1))

/-- The slicing loop `for (let i = 0; i < videos.length; i += batchSize)
{ const batch = videos.slice(i, i + batchSize); ... }`: the input cut into
consecutive runs of `B` elements (the last one possibly shorter). -/
def batches (B : Nat) (l : List α) : List (List α) :=
  batchesGo B l.length l

/-- `processBatch(videos, 5)` of src/server.js lines 315-338 (and the
semantically identical phase-1 loop of src/unnamed/part_000 lines 398-422):
each batch of 5 runs its fetches concurrently via `Promise.all`, batches run
sequentially, and the settled results are pushed in order into one list. -/
def processBatch (env : Video → FetchOutcome) (videos : List Video) : List DownloadResult :=
  ((batches 5 videos).map (fun batch => batch.map (fetchVideo env))).flatten

/-- The archive-building loop of src/unnamed/part_000 lines 446-449: for each
successful download, in order, one `archive.file(tempPath, { name:
cleanFilename })` entry holding exactly the fetched bytes (archiver appends;
duplicate names produce duplicate entries). -/
def archiveEntries (results : List DownloadResult) : List (String × Buffer) :=
  (results.filter (fun r => r.isSuccess)).map
    (fun r => (cleanFilename r.videoOf.filename, r.bufferOf))

/-- `zip.file(name, buffer)` of JSZip: the archive is a dictionary keyed by
entry name, so adding an existing name overwrites that entry in place (last
write wins) while a fresh name appends. -/
def jszipAdd : List (String × Buffer) → String → Buffer → List (String × Buffer)
  | [], name, buf => [(name, buf)]
  | (n, b) :: rest, name, buf =>
      if n == name then (n, buf) :: rest else (n, b) :: jszipAdd rest name buf

/-- The JSZip archive built by the main handler's loop (src/server.js lines
380-384): one `zip.file(cleanFilename, buffer)` call per successful download,
in order. -/
def jszipEntries (results : List DownloadResult) : List (String × Buffer) :=
  (results.filter (fun r => r.isSuccess)).foldl
    (fun z r => jszipAdd z (cleanFilename r.videoOf.filename) r.bufferOf) []

/-- One item of the router variant's batch map (src/server.js lines 622-637):
a failed download is not captured — the callback throws
`Falha ao baixar vídeo: <filename>`, rejecting the whole `Promise.all`. -/
def routerFetchOne (env : Video → FetchOutcome) (v : Video) :
    Except String (String × Buffer) :=
  match downloadVideoWithTimeout (env v) with
  | .ok b => .ok (cleanFilename v.filename, b)
  | .error _ => .error ("Falha ao baixar vídeo: " ++ v.filename)

/-- `processBatch` of the router variant (src/server.js lines 614-644): any
single rejected download rejects its batch's `Promise.all` and so the whole
call; otherwise the per-batch results are concatenated in order.
`Promise.all` settles on the temporally first rejection; the embedding picks
the first one in batch order, which coincides whenever at most one download
of a batch fails. -/
def routerProcessBatch (env : Video → FetchOutcome) (videos : List Video) :
    Except String (List (String × Buffer)) := do
  let settled ← (batches 5 videos).mapM (fun batch => batch.mapM (routerFetchOne env))
  return settled.flatten

/-- The outcome of one PUT attempt against the object store: a 2xx response,
or a failure carrying the JS error's `code` (empty when the rejection was a
plain `Error`, as for a non-2xx response) and its `message`. -/
inductive UploadAttemptOutcome where
  | success
  | failure (code : String) (msg : String)
deriving DecidableEq

/-- The retry guard of src/unnamed/part_000 line 627: `error.code === 'EPROTO'
|| error.code === 'ECONNRESET' || error.message.includes('Timeout')`. -/
def isTransientUploadError (code msg : String) : Bool :=
  code == "EPROTO" || code == "ECONNRESET" || strIncludes msg "Timeout"

/-- What one call of the retrying uploader did: how many HTTP attempts it
made, the backoff waits (in ms, in order) it slept before each retry, and
whether it resolved or threw (carrying the last error's code and message). -/
structure UploadTrace where
  attempts : Nat
  delaysMs : List Nat
  result : Except (String × String) Unit

/-- `const maxRetries = 3` of `uploadZipToR2WithRetry`. -/
def maxRetries : Nat := 3

/-- Recursion core of `uploadZipToR2WithRetry` (src/unnamed/part_000 lines
571-634).  `remaining` counts how many retries the `attempt < maxRetries`
guard still allows, i.e. `maxRetries - attempt`; the wrapper instantiates it
that way, making the recursion structural.  A failed attempt retries after
sleeping `2000 * attempt` ms exactly when a retry is still allowed and the
error is transient; otherwise the error is rethrown. -/
def uploadRetryGo (up : Nat → UploadAttemptOutcome) (remaining attempt : Nat) : UploadTrace :=
  match up attempt with
  | .success => { attempts := 1, delaysMs := [], result := .ok () }
  | .failure code msg =>
      match remaining with
      | 0 => { attempts := 1, delaysMs := [], result := .error (code, msg) }
      | r + 1 =>
          if isTransientUploadError code msg then
            let t := uploadRetryGo up r (attempt + 1)
            { attempts := t.attempts + 1, delaysMs := 2000 * attempt :: t.delaysMs,
              result := t.result }
          else { attempts := 1, delaysMs := [], result := .error (code, msg) }

/-- `uploadZipToR2WithRetry(uploadUrl, zipPath, zipSizeBytes)` starts at
`attempt = 1`. -/
def uploadZipToR2WithRetry (up : Nat → UploadAttemptOutcome) : UploadTrace :=
  uploadRetryGo up (maxRetries - 1) 1

/-- The HTTP response the `/generate-zip` handler sends: 400 for a missing or
empty `videos` field, 500 with the fatal error's message, or 200 with
`videosCount` (the other success fields — zipPath, zipPublicUrl, sizes,
timings — are derived data the claims do not touch). -/
inductive JobResult where
  | badRequest (error : String)
  | serverError (error : String)
  | ok (videosCount : Nat)
deriving DecidableEq

/-- The JSON request body as destructured at the top of the handler
(src/unnamed/part_000 lines 380-388): `videos = []` is a destructuring
default, so an absent field becomes the empty list (a JS `null`, which the
default does not replace, is caught by the `!videos` half of the same guard
and is not modelled separately). -/
structure ZipRequestBody where
  jobId : String
  projectId : String
  userId : String
  productCode : String
  videos : Option (List Video)
  notificationWebhook : Option String
deriving DecidableEq

/-- What one run of the streaming `/generate-zip` handler did: which fetches
it issued (in order), the archive entries it wrote, how many upload attempts
it made, and the HTTP response it sent. -/
structure GenerateZipRun where
  fetched : List Video
  entries : List (String × Buffer)
  uploadAttempts : Nat
  response : JobResult
deriving DecidableEq

/-- The fatal error thrown when every fetch failed
(src/unnamed/part_000 line 432). -/
def noAssetsMsg : String := "Nenhum vídeo foi baixado com sucesso"

/-- The streaming `/generate-zip` handler (src/unnamed/part_000 lines
372-566): destructure with `videos = []`, answer 400 when `!videos ||
videos.length === 0`; download in batches of 5 keeping per-asset failures as
failure results; throw `noAssetsMsg` (surfaced as a 500) when no download
succeeded; write one archive entry per successful download; upload the zip
with the retrying uploader, a thrown upload error surfacing as a 500 with the
error's message; answer 200 with `videosCount` = the number of successful
downloads. -/
def generateZip (env : Video → FetchOutcome) (up : Nat → UploadAttemptOutcome)
    (body : ZipRequestBody) : GenerateZipRun :=
  let videos := body.videos.getD []
  if videos.isEmpty then
    { fetched := [], entries := [], uploadAttempts := 0,
      response := .badRequest "Nenhum vídeo fornecido" }
  else
    let downloadResults := processBatch env videos
    let successfulDownloads := downloadResults.filter (fun r => r.isSuccess)
    if successfulDownloads.isEmpty then
      { fetched := videos, entries := [], uploadAttempts := 0,
        response := .serverError noAssetsMsg }
    else
      let entries := archiveEntries downloadResults
      let t := uploadZipToR2WithRetry up
      match t.result with
      | .error e =>
          { fetched := videos, entries := entries, uploadAttempts := t.attempts,
            response := .serverError e.2 }
      | .ok _ =>
          { fetched := videos, entries := entries, uploadAttempts := t.attempts,
            response := .ok successfulDownloads.length }

/-- The main `/generate-zip` handler (src/server.js lines 340-516): same 400
guard as the streaming variant; downloads via `processBatch` keeping
per-asset failures as failure results; throws `noAssetsMsg` (surfaced as a
500) when no download succeeded; builds the JSZip archive (one
`zip.file(cleanFilename, buffer)` per successful download, colliding names
overwriting); uploads with a single PUT that resolves on a 2xx status and
rejects with `Upload falhou: <status>` otherwise; answers 200 with
`videosCount` = the number of successful downloads. -/
def mainGenerateZip (env : Video → FetchOutcome) (uploadStatus : Nat)
    (body : ZipRequestBody) : GenerateZipRun :=
  let videos := body.videos.getD []
  if videos.isEmpty then
    { fetched := [], entries := [], uploadAttempts := 0,
      response := .badRequest "Nenhum vídeo fornecido" }
  else
    let downloadResults := processBatch env videos
    let successfulDownloads := downloadResults.filter (fun r => r.isSuccess)
    if successfulDownloads.isEmpty then
      { fetched := videos, entries := [], uploadAttempts := 0,
        response := .serverError noAssetsMsg }
    else
      let entries := jszipEntries downloadResults
      if 200 ≤ uploadStatus ∧ uploadStatus < 300 then
        { fetched := videos, entries := entries, uploadAttempts := 1,
          response := .ok successfulDownloads.length }
      else
        { fetched := videos, entries := entries, uploadAttempts := 1,
          response := .serverError ("Upload falhou: " ++ toString uploadStatus) }

/-- The router-variant `/generate-zip` handler (src/server.js lines 646-782)
up to its response: same 400 guard; `processBatch` rejects wholesale on any
failed download, surfacing as a 500 with the thrown message; otherwise the
JSZip archive is built, the zip is PUT once (`uploadResponse.ok`, i.e. a 2xx
status, is required) and the 200 response reports `videosCount:
videos.length`. -/
def routerGenerateZip (env : Video → FetchOutcome) (uploadStatus : Nat)
    (videosField : Option (List Video)) : JobResult :=
  let videos := videosField.getD []
  if videos.isEmpty then .badRequest "Nenhum vídeo fornecido"
  else
    match routerProcessBatch env videos with
    | .error msg => .serverError msg
    | .ok downloaded =>
        let _zip := downloaded.foldl (fun z e => jszipAdd z e.1 e.2) []
        if 200 ≤ uploadStatus ∧ uploadStatus < 300 then .ok videos.length
        else .serverError ("Upload falhou: " ++ toString uploadStatus)

/-- Raw digest bytes of the opaque hash collaborator. -/
abbrev Bytes := List Nat

/-- The kDate/kRegion/kService/kSigning derivation transcribed from
src/unnamed/part_000 lines 485-488 (identically src/server.js lines 420-423
and 571-574).  `hmac key data` stands for
`crypto.createHmac('sha256', key).update(data).digest()` and `toBytes` for
the UTF-8 bytes of a string key. -/
def signingKey (hmac : Bytes → Bytes → Bytes) (toBytes : String → Bytes)
    (secretAccessKey dateStamp region service : String) : Bytes :=
  let kDate := hmac (toBytes ("AWS4" ++ secretAccessKey)) (toBytes dateStamp)
  let kRegion := hmac kDate (toBytes region)
  let kService := hmac kRegion (toBytes service)
  hmac kService (toBytes "aws4_request")

/-- The final signature line (src/unnamed/part_000 line 489): the hex-encoded
keyed hash of the string-to-sign under the derived signing key. -/
def r2Signature (hmac : Bytes → Bytes → Bytes) (toBytes : String → Bytes)
    (toHex : Bytes → String)
    (secretAccessKey dateStamp region service stringToSign : String) : String :=
  toHex (hmac (signingKey hmac toBytes secretAccessKey dateStamp region service)
    (toBytes stringToSign))

/-- The spec side of the signing-key claim, written from the spec's words:
the "signing key is derived by chaining keyed hashes over the secret, the
date, the region, the service name, and a fixed terminator string, in that
exact order" — a left fold of the keyed hash over that chain, seeded with the
'AWS4'-prefixed secret. -/
def specChainedKey (hmac : Bytes → Bytes → Bytes) (toBytes : String → Bytes)
    (secretAccessKey : String) (chain : List String) : Bytes :=
  chain.foldl (fun k piece => hmac k (toBytes piece)) (toBytes ("AWS4" ++ secretAccessKey))

/-- `generateR2SignedUrl` of the router variant (src/server.js lines 552-578),
transcribed let-for-let: it assembles the canonical request and string-to-sign,
derives the signature — and then returns `https://{host}{canonicalUri}`,
leaving the computed signature unused. `sha256hex` stands for
`crypto.createHash('sha256').update(s).digest('hex')`. -/
def generateR2SignedUrl (hmac : Bytes → Bytes → Bytes) (toBytes : String → Bytes)
    (toHex : Bytes → String) (sha256hex : String → String)
    (accountId accessKeyId secretAccessKey bucketName objectKey method amzDate :
      String) : String :=
  let region := "auto"
  let service := "s3"
  let host := bucketName ++ "." ++ accountId ++ ".r2.cloudflarestorage.com"
  let dateStamp := strTake 8 amzDate
  let canonicalUri := "/" ++ objectKey
  let canonicalQuerystring := ""
  let canonicalHeaders := "host:" ++ host ++ "\nx-amz-date:" ++ amzDate ++ "\n"
  let signedHeaders := "host;x-amz-date"
  let payloadHash := "UNSIGNED-PAYLOAD"
  let canonicalRequest := method ++ "\n" ++ canonicalUri ++ "\n" ++ canonicalQuerystring ++
    "\n" ++ canonicalHeaders ++ "\n" ++ signedHeaders ++ "\n" ++ payloadHash
  let algorithm := "AWS4-HMAC-SHA256"
  let credentialScope := dateStamp ++ "/" ++ region ++ "/" ++ service ++ "/aws4_request"
  let stringToSign := algorithm ++ "\n" ++ amzDate ++ "\n" ++ credentialScope ++ "\n" ++
    sha256hex canonicalRequest
  let signature := r2Signature hmac toBytes toHex secretAccessKey dateStamp region
    service stringToSign
  let _ := accessKeyId
  let _ := signature
  "https://" ++ host ++ canonicalUri

/-- The pre-signed upload URL of the streaming variant (src/unnamed/part_000
lines 470-491): the full X-Amz query-parameter set, the signature appended
last.  `encodeURIComponent` is the opaque JS percent-encoder. -/
def streamingUploadUrl (hmac : Bytes → Bytes → Bytes) (toBytes : String → Bytes)
    (toHex : Bytes → String) (sha256hex : String → String)
    (encodeURIComponent : String → String)
    (accountId accessKeyId secretAccessKey bucketName r2Path amzDate : String) : String :=
  let region := "auto"
  let service := "s3"
  let host := accountId ++ ".r2.cloudflarestorage.com"
  let dateStamp := strTake 8 amzDate
  let canonicalUri := "/" ++ bucketName ++ "/" ++ r2Path
  let credential := accessKeyId ++ "/" ++ dateStamp ++ "/" ++ region ++ "/" ++ service ++
    "/aws4_request"
  let queryParams := "X-Amz-Algorithm=AWS4-HMAC-SHA256&X-Amz-Credential=" ++
    encodeURIComponent credential ++ "&X-Amz-Date=" ++ amzDate ++
    "&X-Amz-Expires=3600&X-Amz-SignedHeaders=host"
  let canonicalRequest := "PUT\n" ++ canonicalUri ++ "\n" ++ queryParams ++ "\nhost:" ++
    host ++ "\n\nhost\nUNSIGNED-PAYLOAD"
  let credentialScope := dateStamp ++ "/" ++ region ++ "/" ++ service ++ "/aws4_request"
  let stringToSign := "AWS4-HMAC-SHA256\n" ++ amzDate ++ "\n" ++ credentialScope ++ "\n" ++
    sha256hex canonicalRequest
  let signature := r2Signature hmac toBytes toHex secretAccessKey dateStamp region
    service stringToSign
  "https://" ++ host ++ canonicalUri ++ "?" ++ queryParams ++ "&X-Amz-Signature=" ++
    signature

/-- A file of the shared temp area as the sweep sees it: its name and its
last-modified time in ms. -/
structure TmpFile where
  name : String
  mtimeMs : Int
deriving DecidableEq

/-- `const maxAge = 60 * 60 * 1000` (one hour) of the periodic sweep. -/
def maxAgeMs : Int := 60 * 60 * 1000

/-- The name guard of the streaming variant's sweep (src/unnamed/part_000
lines 688-690): the six startsWith tests, or-chained as in the source. -/
def sweepNameMatches (file : String) : Bool :=
  strStartsWith file "normalized_" || strStartsWith file "upload_" ||
  strStartsWith file "input_" || strStartsWith file "compressed_" ||
  strStartsWith file "video_" || strStartsWith file "zip_"

/-- Whether one sweep pass at clock `now` unlinks the file: its name matches
a known temp name start and `now - stats.mtimeMs > maxAge` (strictly). -/
def sweepShouldDelete (now : Int) (f : TmpFile) : Bool :=
  sweepNameMatches f.name && decide (now - f.mtimeMs > maxAgeMs)

/-- The files one pass of the `setInterval` sweep (src/unnamed/part_000 lines
681-704) deletes from the listed temp directory. -/
def sweepPass (now : Int) (files : List TmpFile) : List TmpFile :=
  files.filter (sweepShouldDelete now)

/-- As long as the fuel covers the list's length, flattening the batches
gives back the original list. -/
theorem batchesGo_flatten (B : Nat) :
    ∀ (fuel : Nat) (l : List α), l.length ≤ fuel → (batchesGo B fuel l).flatten = l
  | _, [], _ => by cases ‹Nat› <;> rfl
  | 0, x :: xs, h => by simp at h
  | fuel + 1, x :: xs, h => by
      have hlen : (xs.drop (B - 1)).length ≤ fuel := by
        simp only [List.length_drop]
        have := Nat.succ_le_succ_iff.mp (by simpa using h)
        omega
      simp only [batchesGo, List.flatten_cons,
        batchesGo_flatten B fuel (xs.drop (B - 1)) hlen]
      simp [List.take_append_drop]

/-- Concatenating the slices of the batching loop restores the input. -/
theorem batches_flatten (B : Nat) (l : List α) : (batches B l).flatten = l :=
  batchesGo_flatten B l.length l (Nat.le_refl _)

/-- Batch-wise concurrent fetching settles to the plain map over the input:
batching (and the batch-internal concurrency it denotes) neither reorders nor
drops results. -/
theorem processBatch_eq_map (env : Video → FetchOutcome) (videos : List Video) :
    processBatch env videos = videos.map (fetchVideo env) := by
  unfold processBatch
  rw [← List.map_flatten, batches_flatten]

/-- A fetch settles on the video it was issued for. -/
theorem fetchVideo_videoOf (env : Video → FetchOutcome) (v : Video) :
    (fetchVideo env v).videoOf = v := by
  unfold fetchVideo
  cases downloadVideoWithTimeout (env v) <;> rfl

/-- The archive's entries are the input assets in order, minus the failed
fetches, each carrying its sanitized name and its fetched bytes. -/
theorem archiveEntries_processBatch (env : Video → FetchOutcome) (videos : List Video) :
    archiveEntries (processBatch env videos)
      = (videos.filter (fun v => (fetchVideo env v).isSuccess)).map
          (fun v => (cleanFilename v.filename, (fetchVideo env v).bufferOf)) := by
  rw [processBatch_eq_map]
  unfold archiveEntries
  rw [List.filter_map, List.map_map]
  refine List.map_congr_left (fun v hv => ?_)
  simp [Function.comp, fetchVideo_videoOf]

/-- Every input yields exactly one settled result, so the successes and the
failures partition the input's length. -/
theorem length_filter_partition (p : α → Bool) (l : List α) :
    (l.filter p).length + (l.filter (fun a => !p a)).length = l.length := by
  induction l with
  | nil => rfl
  | cons a t ih =>
      cases h : p a <;> simp [List.filter_cons, h] <;> omega

/-- Adding a name not yet present in a JSZip dictionary appends it. -/
theorem jszipAdd_fresh (z : List (String × Buffer)) (name : String) (buf : Buffer)
    (h : ∀ e ∈ z, e.1 ≠ name) : jszipAdd z name buf = z ++ [(name, buf)] := by
  induction z with
  | nil => rfl
  | cons e t ih =>
      obtain ⟨n, b⟩ := e
      have h1 : ¬(n == name) = true := by
        simpa using h (n, b) (by simp)
      simp only [jszipAdd, if_neg h1, List.cons_append, List.cons.injEq, true_and]
      exact ih (fun e he => h e (by simp [he]))

/-- Folding collision-free items into a JSZip dictionary that does not yet
hold any of their names grows it by exactly one entry per item. -/
theorem jszipFold_length :
    ∀ (items : List DownloadResult) (z : List (String × Buffer)),
      (items.map (fun r => cleanFilename r.videoOf.filename)).Nodup →
      (∀ e ∈ z, ∀ r ∈ items, e.1 ≠ cleanFilename r.videoOf.filename) →
      (items.foldl (fun z r => jszipAdd z (cleanFilename r.videoOf.filename) r.bufferOf)
          z).length
        = z.length + items.length
  | [], z, _, _ => by simp
  | r :: rest, z, hnd, hz => by
      simp only [List.map_cons] at hnd
      obtain ⟨hhead, htail⟩ := List.nodup_cons.mp hnd
      simp only [List.foldl_cons]
      rw [jszipAdd_fresh z _ _ (fun e he => hz e he r (by simp))]
      have hfresh : ∀ e ∈ z ++ [(cleanFilename r.videoOf.filename, r.bufferOf)],
          ∀ s ∈ rest, e.1 ≠ cleanFilename s.videoOf.filename := by
        intro e he s hs
        rcases List.mem_append.mp he with he | he
        · exact hz e he s (by simp [hs])
        · simp only [List.mem_singleton.mp he]
          intro hcontra
          exact hhead (hcontra ▸ List.mem_map_of_mem _ hs)
      rw [jszipFold_length rest _ htail hfresh]
      simp [List.length_append]
      omega

/-- When the sanitized names of the successes are pairwise distinct, the
JSZip archive holds one entry per success. -/
theorem jszipEntries_length_of_nodup (results : List DownloadResult)
    (h : ((results.filter (fun r => r.isSuccess)).map
        (fun r => cleanFilename r.videoOf.filename)).Nodup) :
    (jszipEntries results).length = (results.filter (fun r => r.isSuccess)).length := by
  unfold jszipEntries
  rw [jszipFold_length _ [] h (by simp)]
  simp

/-- Every call of the retrying uploader makes at least one attempt. -/
theorem uploadRetryGo_attempts_pos (up : Nat → UploadAttemptOutcome)
    (remaining attempt : Nat) : 1 ≤ (uploadRetryGo up remaining attempt).attempts := by
  unfold uploadRetryGo
  cases up attempt with
  | success => simp
  | failure code msg =>
      cases remaining with
      | zero => simp
      | succ r => by_cases ht : isTransientUploadError code msg = true <;> simp [ht]

/-- The retrying uploader makes at most one more attempt than it has retries
left. -/
theorem uploadRetryGo_attempts_le (up : Nat → UploadAttemptOutcome)
    (remaining attempt : Nat) :
    (uploadRetryGo up remaining attempt).attempts ≤ remaining + 1 := by
  induction remaining generalizing attempt with
  | zero =>
      unfold uploadRetryGo
      cases up attempt <;> simp
  | succ r ih =>
      unfold uploadRetryGo
      cases up attempt with
      | success => simp
      | failure code msg =>
          by_cases ht : isTransientUploadError code msg = true
          · have := ih (attempt + 1)
            simp only [ht, if_true]
            omega
          · simp [ht]

/-- Before its `k`-th retry the uploader sleeps `2000 * (number of the attempt
that just failed)` ms: the recorded waits are `2000*attempt, 2000*(attempt+1),
…` in order. -/
theorem uploadRetryGo_delays (up : Nat → UploadAttemptOutcome)
    (remaining attempt : Nat) :
    (uploadRetryGo up remaining attempt).delaysMs
      = (List.range ((uploadRetryGo up remaining attempt).attempts - 1)).map
          (fun i => 2000 * (attempt + i)) := by
  induction remaining generalizing attempt with
  | zero =>
      unfold uploadRetryGo
      cases up attempt <;> simp
  | succ r ih =>
      unfold uploadRetryGo
      cases up attempt with
      | success => simp
      | failure code msg =>
          by_cases ht : isTransientUploadError code msg = true
          · simp only [ht, if_true]
            have hpos := uploadRetryGo_attempts_pos up r (attempt + 1)
            obtain ⟨m, hm⟩ : ∃ m, (uploadRetryGo up r (attempt + 1)).attempts = m + 1 :=
              ⟨(uploadRetryGo up r (attempt + 1)).attempts - 1,
                (Nat.succ_pred_eq_of_pos hpos).symm⟩
            rw [ih (attempt + 1), hm]
            simp only [Nat.add_sub_cancel, List.range_succ_eq_map, List.map_cons,
              List.map_map, Nat.add_zero, List.cons.injEq, true_and]
            refine List.map_congr_left (fun i _ => ?_)
            simp only [Function.comp_apply, Nat.succ_eq_add_one]
            omega
          · simp [ht]

/-- Whenever attempt `i` was followed by another attempt, attempt `i` failed
with a transient error (reset, protocol failure, or timeout). -/
theorem uploadRetryGo_retried_transient (up : Nat → UploadAttemptOutcome)
    (remaining attempt : Nat) :
    ∀ i, attempt ≤ i → i + 1 < attempt + (uploadRetryGo up remaining attempt).attempts →
      ∃ code msg, up i = .failure code msg ∧ isTransientUploadError code msg = true := by
  induction remaining generalizing attempt with
  | zero =>
      intro i hi1 hi2
      unfold uploadRetryGo at hi2
      cases h : up attempt <;> rw [h] at hi2 <;> simp at hi2 <;> omega
  | succ r ih =>
      intro i hi1 hi2
      unfold uploadRetryGo at hi2
      cases h : up attempt with
      | success =>
          rw [h] at hi2
          simp at hi2
          omega
      | failure code msg =>
          rw [h] at hi2
          by_cases ht : isTransientUploadError code msg = true
          · simp only [ht, if_true] at hi2
            rcases Nat.eq_or_lt_of_le hi1 with hieq | hilt
            · exact ⟨code, msg, hieq ▸ h, ht⟩
            · exact ih (attempt + 1) i hilt (by omega)
          · simp [ht] at hi2
            omega

/-- A first attempt failing non-transiently is rethrown at once: no retry, no
backoff. -/
theorem uploadRetry_nonTransient_single (up : Nat → UploadAttemptOutcome)
    (code msg : String) (h1 : up 1 = .failure code msg)
    (h2 : isTransientUploadError code msg = false) :
    uploadZipToR2WithRetry up
      = { attempts := 1, delaysMs := [], result := .error (code, msg) } := by
  simp [uploadZipToR2WithRetry, maxRetries, uploadRetryGo, h1, h2]

/-- Three failures, the first two transient, exhaust the retries: three
attempts total and the third attempt's error is the one rethrown. -/
theorem uploadRetry_exhaustion (up : Nat → UploadAttemptOutcome)
    (c1 m1 c2 m2 c3 m3 : String)
    (h1 : up 1 = .failure c1 m1) (t1 : isTransientUploadError c1 m1 = true)
    (h2 : up 2 = .failure c2 m2) (t2 : isTransientUploadError c2 m2 = true)
    (h3 : up 3 = .failure c3 m3) :
    (uploadZipToR2WithRetry up).attempts = 3
      ∧ (uploadZipToR2WithRetry up).result = .error (c3, m3) := by
  simp [uploadZipToR2WithRetry, maxRetries, uploadRetryGo, h1, h2, h3, t1, t2]

/-- The successes among the settled results are the successfully fetched
inputs, in input order. -/
theorem filter_success_processBatch (env : Video → FetchOutcome) (videos : List Video) :
    (processBatch env videos).filter (fun r => r.isSuccess)
      = (videos.filter (fun v => (fetchVideo env v).isSuccess)).map (fetchVideo env) := by
  rw [processBatch_eq_map, List.filter_map]
  rfl

/-- Claim C3: the upload makes at most 3 total attempts; the backoff waits are
`2s * attemptNumber` for the attempt that just failed, in order; a
non-transient first failure (e.g. an HTTP 403 rejection, which is a plain
`Error` with no `code` and no 'Timeout' in its message) makes exactly one
attempt with no retry and rethrows that error; every attempt that was
followed by another had failed transiently (`EPROTO`, `ECONNRESET`, or a
message containing 'Timeout'); and three failures with the first two
transient exhaust the retries, rethrowing the last error. -/
theorem C3_upload_retry_policy (up : Nat → UploadAttemptOutcome) :
    (uploadZipToR2WithRetry up).attempts ≤ 3
    ∧ (uploadZipToR2WithRetry up).delaysMs
        = (List.range ((uploadZipToR2WithRetry up).attempts - 1)).map
            (fun i => 2000 * (i + 1))
    ∧ (∀ code msg, up 1 = .failure code msg → isTransientUploadError code msg = false →
        uploadZipToR2WithRetry up
          = { attempts := 1, delaysMs := [], result := .error (code, msg) })
    ∧ (∀ i, 1 ≤ i → i < (uploadZipToR2WithRetry up).attempts →
        ∃ code msg, up i = .failure code msg ∧ isTransientUploadError code msg = true)
    ∧ (∀ c1 m1 c2 m2 c3 m3,
        up 1 = .failure c1 m1 → isTransientUploadError c1 m1 = true →
        up 2 = .failure c2 m2 → isTransientUploadError c2 m2 = true →
        up 3 = .failure c3 m3 →
        (uploadZipToR2WithRetry up).attempts = 3
          ∧ (uploadZipToR2WithRetry up).result = .error (c3, m3)) := by
  refine ⟨uploadRetryGo_attempts_le up 2 1, ?_, ?_, ?_, ?_⟩
  · rw [show uploadZipToR2WithRetry up = uploadRetryGo up 2 1 from rfl,
      uploadRetryGo_delays up 2 1]
    exact List.map_congr_left fun i _ => by omega
  · exact fun code msg h1 h2 => uploadRetry_nonTransient_single up code msg h1 h2
  · intro i h1 h2
    have h2' : i < (uploadRetryGo up 2 1).attempts := h2
    exact uploadRetryGo_retried_transient up 2 1 i h1 (by omega)
  · exact fun c1 m1 c2 m2 c3 m3 h1 t1 h2 t2 h3 =>
      uploadRetry_exhaustion up c1 m1 c2 m2 c3 m3 h1 t1 h2 t2 h3

/-- An upload oracle that answers every attempt with an HTTP 403 rejection
(a plain `Error`, so no `code` and no 'Timeout' in the message). -/
def c3Up403 : Nat → UploadAttemptOutcome :=
  fun _ => .failure "" "Upload falhou: 403 - Forbidden"

/-- Witness for claim C3: against the 403 oracle the uploader makes exactly
one attempt, sleeps no backoff, and rethrows the 403 error. -/
theorem C3_witness_403_single_attempt :
    uploadZipToR2WithRetry c3Up403
      = { attempts := 1, delaysMs := [],
          result := .error ("", "Upload falhou: 403 - Forbidden") } :=
  (C3_upload_retry_policy c3Up403).2.2.1 "" "Upload falhou: 403 - Forbidden" rfl (by decide)

/-- Claim C4: the signature is the hex-encoded keyed hash of the
string-to-sign under the key obtained by chaining the keyed hash over the
'AWS4'-prefixed secret, the date stamp, the region, the service name and the
terminator 'aws4_request', in exactly that order; determinism for a fixed
clock reading is immediate because the embedding is a pure function of its
arguments (the clock enters only through `dateStamp`). -/
theorem C4_signing_key_chain (hmac : Bytes → Bytes → Bytes) (toBytes : String → Bytes)
    (toHex : Bytes → String)
    (secretAccessKey dateStamp region service stringToSign : String) :
    r2Signature hmac toBytes toHex secretAccessKey dateStamp region service stringToSign
      = toHex (hmac
          (specChainedKey hmac toBytes secretAccessKey
            [dateStamp, region, service, "aws4_request"])
          (toBytes stringToSign)) := rfl

/-- Claim C5 fails on the code: `generateR2SignedUrl` (router variant) derives
the signature and then returns the bare `https://{bucket}.{account}.…/{key}`
URL — no query parameters, no headers, output independent of every signing
input — while the streaming variant's upload URL does embed the X-Amz
parameter set ending in the signature. -/
theorem C5_generateR2SignedUrl_unsigned :
    (∀ (hmac : Bytes → Bytes → Bytes) (toBytes : String → Bytes) (toHex : Bytes → String)
        (sha256hex : String → String)
        (accountId accessKeyId secretAccessKey bucketName objectKey method amzDate :
          String),
      generateR2SignedUrl hmac toBytes toHex sha256hex accountId accessKeyId
          secretAccessKey bucketName objectKey method amzDate
        = "https://" ++ (bucketName ++ "." ++ accountId ++ ".r2.cloudflarestorage.com")
            ++ ("/" ++ objectKey))
    ∧ strIncludes
        (generateR2SignedUrl (fun _ _ => []) (fun _ => []) (fun _ => "") (fun _ => "")
          "acct" "AKIA" "SECRET" "media" "zips/u1/a.zip" "PUT" "20251012T000000Z")
        "X-Amz" = false
    ∧ strIncludes
        (streamingUploadUrl (fun _ _ => []) (fun _ => []) (fun _ => "sig") (fun _ => "h")
          (fun s => s) "acct" "AKIA" "SECRET" "media" "zips/u1/a.zip" "20251012T000000Z")
        "X-Amz-Signature=" = true := by
  refine ⟨fun hmac toBytes toHex sha256hex a k s b o m d => rfl, by decide, by decide⟩

/-- Claim C7 (amended): a fetch fails with the HTTP status error (capturing
the code) exactly when the status differs from 200 — so a 2xx status other
than 200 is also rejected — fails with a network error on a connection
failure, fails with the timeout error when the timer fires, succeeds exactly
on status 200, and a failed download settles as a captured failure result
rather than being thrown past the batch. -/
theorem C7_fetch_error_taxonomy :
    (∀ msg, downloadVideoWithTimeout (.connectError msg) = .error (.network msg))
    ∧ downloadVideoWithTimeout .timeout = .error .timeout
    ∧ (∀ b : Buffer, downloadVideoWithTimeout (.response 200 b) = .ok b)
    ∧ (∀ (s : Nat) (b : Buffer), s ≠ 200 →
        downloadVideoWithTimeout (.response s b) = .error (.httpStatus s))
    ∧ (∀ (env : Video → FetchOutcome) (v : Video) (e : FetchError),
        downloadVideoWithTimeout (env v) = .error e → fetchVideo env v = .err v e) := by
  refine ⟨fun msg => rfl, rfl, fun b => rfl, fun s b hs => ?_, fun env v e he => ?_⟩
  · simp [downloadVideoWithTimeout, hs]
  · simp [fetchVideo, he]

/-- Claim C7's counterexample: 201 is a 2xx status, yet the fetch rejects it
with the HTTP status error — only exactly 200 succeeds. -/
theorem C7_counterexample_status_201 :
    (200 ≤ 201 ∧ 201 < 300)
    ∧ downloadVideoWithTimeout (.response 201 [0]) = .error (.httpStatus 201) :=
  ⟨by decide, rfl⟩

/-- Claim C8: one sweep pass deletes a file exactly when its name starts with
one of the known temp-file name starts and its age strictly exceeds one hour;
in particular, of `zip_OLD` (2 hours old), `zip_NEW` (5 minutes old) and
`keepme.txt`, only `zip_OLD` is deleted. -/
theorem C8_sweep_exact :
    (∀ (now : Int) (files : List TmpFile) (f : TmpFile),
      f ∈ sweepPass now files
        ↔ f ∈ files ∧ sweepNameMatches f.name = true ∧ now - f.mtimeMs > maxAgeMs)
    ∧ sweepPass 7200000
        [{ name := "zip_OLD", mtimeMs := 0 }, { name := "zip_NEW", mtimeMs := 6900000 },
          { name := "keepme.txt", mtimeMs := 0 }]
        = [{ name := "zip_OLD", mtimeMs := 0 }] := by
  constructor
  · intro now files f
    simp [sweepPass, sweepShouldDelete, List.mem_filter, and_assoc]
  · decide

/-- One character's sanitization is idempotent: its image is always in the
kept class. -/
theorem sanitizeChar_idem (c : Char) : sanitizeChar (sanitizeChar c) = sanitizeChar c := by
  unfold sanitizeChar
  by_cases h : allowedChar c = true
  · simp [h]
  · simp [h]

/-- Claim C9: sanitization replaces exactly the characters outside
`[A-Za-z0-9._-]` with an underscore (and is total: it is a total function on
all strings), and it is idempotent. -/
theorem C9_sanitize_idempotent_total (x : String) :
    (cleanFilename x).data = x.data.map (fun c => if allowedChar c then c else '_')
    ∧ cleanFilename (cleanFilename x) = cleanFilename x := by
  refine ⟨rfl, ?_⟩
  show (⟨((x.data.map sanitizeChar).map sanitizeChar : List Char)⟩ : String)
      = ⟨x.data.map sanitizeChar⟩
  rw [List.map_map]
  exact congrArg String.mk (List.map_congr_left fun c _ => sanitizeChar_idem c)

/-- Claim C10: when the request body omits the `videos` field entirely, the
destructuring default turns it into the empty list, the emptiness guard fires,
and the handler answers 400 having issued no fetch, written no archive entry
and made no upload attempt; the handler (a total function here) does not
throw on the missing field. -/
theorem C10_missing_videos_field (env : Video → FetchOutcome)
    (up : Nat → UploadAttemptOutcome) (body : ZipRequestBody)
    (h : body.videos = none) :
    generateZip env up body
      = { fetched := [], entries := [], uploadAttempts := 0,
          response := .badRequest "Nenhum vídeo fornecido" } := by
  simp [generateZip, h, Option.getD]

/-- A concrete request body with no `videos` field. -/
def c10Body : ZipRequestBody :=
  { jobId := "job-1", projectId := "proj-1", userId := "user-1", productCode := "PC",
    videos := none, notificationWebhook := none }

/-- Witness for claim C10 at a concrete body with the field absent. -/
theorem C10_witness_absent_field :
    generateZip (fun _ => .timeout) (fun _ => .success) c10Body
      = { fetched := [], entries := [], uploadAttempts := 0,
          response := .badRequest "Nenhum vídeo fornecido" } :=
  C10_missing_videos_field (fun _ => .timeout) (fun _ => .success) c10Body rfl

/-- Claim C1 (amended): with a nonempty asset list and a succeeding upload,
the streaming handler fails with the no-assets error exactly when zero
fetches succeed, and whenever at least one fetch succeeds it responds
success, reporting exactly the successful subset's size and archiving exactly
the successful subset — an individual fetch failure never aborts it; the main
JSZip handler has the same failure semantics — no-assets error exactly when
zero fetches succeed, otherwise a success response counting the successful
subset with every asset fetched rather than the run aborted (its archive is
the JSZip dictionary, whose collision behavior claim C2 settles). -/
theorem C1_no_assets_iff_zero_success (env : Video → FetchOutcome)
    (up : Nat → UploadAttemptOutcome) (uploadStatus : Nat) (body : ZipRequestBody)
    (hne : body.videos.getD [] ≠ [])
    (hup : up 1 = .success)
    (hst : 200 ≤ uploadStatus ∧ uploadStatus < 300) :
    ((generateZip env up body).response = .serverError noAssetsMsg
        ↔ ∀ v ∈ body.videos.getD [], (fetchVideo env v).isSuccess = false)
    ∧ ((∃ v ∈ body.videos.getD [], (fetchVideo env v).isSuccess = true) →
        (generateZip env up body).response
            = .ok ((body.videos.getD []).filter
                (fun v => (fetchVideo env v).isSuccess)).length
          ∧ (generateZip env up body).entries
              = ((body.videos.getD []).filter (fun v => (fetchVideo env v).isSuccess)).map
                  (fun v => (cleanFilename v.filename, (fetchVideo env v).bufferOf)))
    ∧ ((mainGenerateZip env uploadStatus body).response = .serverError noAssetsMsg
        ↔ ∀ v ∈ body.videos.getD [], (fetchVideo env v).isSuccess = false)
    ∧ ((∃ v ∈ body.videos.getD [], (fetchVideo env v).isSuccess = true) →
        (mainGenerateZip env uploadStatus body).response
            = .ok ((body.videos.getD []).filter
                (fun v => (fetchVideo env v).isSuccess)).length
          ∧ (mainGenerateZip env uploadStatus body).fetched = body.videos.getD []) := by
  have hEmpty : (body.videos.getD []).isEmpty = false := by
    rcases h : body.videos.getD [] with _ | ⟨v, vs⟩
    · exact absurd h hne
    · rfl
  have hupload : uploadZipToR2WithRetry up
      = { attempts := 1, delaysMs := [], result := .ok () } := by
    simp [uploadZipToR2WithRetry, maxRetries, uploadRetryGo, hup]
  have hfs := filter_success_processBatch env (body.videos.getD [])
  by_cases hS : ((processBatch env (body.videos.getD [])).filter
      (fun r => r.isSuccess)).isEmpty = true
  · have hresp : generateZip env up body
        = { fetched := body.videos.getD [], entries := [], uploadAttempts := 0,
            response := .serverError noAssetsMsg } := by
      simp only [generateZip, hEmpty, hS]
      simp
    have hrespMain : mainGenerateZip env uploadStatus body
        = { fetched := body.videos.getD [], entries := [], uploadAttempts := 0,
            response := .serverError noAssetsMsg } := by
      simp only [mainGenerateZip, hEmpty, hS]
      simp
    have hfilterNil : (body.videos.getD []).filter
        (fun v => (fetchVideo env v).isSuccess) = [] := by
      have h1 := hS
      rw [List.isEmpty_iff, hfs] at h1
      simpa [List.map_eq_nil_iff] using h1
    have hall : ∀ v ∈ body.videos.getD [], (fetchVideo env v).isSuccess = false := by
      intro v hv
      have := List.filter_eq_nil_iff.mp hfilterNil v hv
      simpa using this
    have hnoex : ¬∃ v ∈ body.videos.getD [], (fetchVideo env v).isSuccess = true := by
      rintro ⟨v, hv, hsv⟩
      rw [hall v hv] at hsv
      cases hsv
    refine ⟨?_, fun hex => absurd hex hnoex, ?_, fun hex => absurd hex hnoex⟩
    · rw [hresp]
      exact iff_of_true rfl hall
    · rw [hrespMain]
      exact iff_of_true rfl hall
  · have hS' : ((processBatch env (body.videos.getD [])).filter
        (fun r => r.isSuccess)).isEmpty = false := by
      simpa using hS
    have hcount : ((processBatch env (body.videos.getD [])).filter
          (fun r => r.isSuccess)).length
        = ((body.videos.getD []).filter (fun v => (fetchVideo env v).isSuccess)).length := by
      rw [hfs, List.length_map]
    have hnotall : ¬∀ v ∈ body.videos.getD [], (fetchVideo env v).isSuccess = false := by
      intro hall
      apply hS
      rw [List.isEmpty_iff, hfs]
      have : (body.videos.getD []).filter (fun v => (fetchVideo env v).isSuccess) = [] := by
        rw [List.filter_eq_nil_iff]
        intro v hv
        simp [hall v hv]
      simp [this]
    have hresp : generateZip env up body
        = { fetched := body.videos.getD [],
            entries := archiveEntries (processBatch env (body.videos.getD [])),
            uploadAttempts := 1,
            response := .ok ((processBatch env (body.videos.getD [])).filter
              (fun r => r.isSuccess)).length } := by
      simp only [generateZip, hEmpty, hS']
      simp [hupload]
    have hrespMain : mainGenerateZip env uploadStatus body
        = { fetched := body.videos.getD [],
            entries := jszipEntries (processBatch env (body.videos.getD [])),
            uploadAttempts := 1,
            response := .ok ((processBatch env (body.videos.getD [])).filter
              (fun r => r.isSuccess)).length } := by
      simp only [mainGenerateZip, hEmpty, hS']
      simp [hst]
    refine ⟨?_, fun _ => ⟨?_, ?_⟩, ?_, fun _ => ⟨?_, ?_⟩⟩
    · rw [hresp]
      exact iff_of_false (fun habs => by cases habs) hnotall
    · rw [hresp, hcount]
    · rw [hresp]
      exact archiveEntries_processBatch env (body.videos.getD [])
    · rw [hrespMain]
      exact iff_of_false (fun habs => by cases habs) hnotall
    · rw [hrespMain, hcount]
    · rw [hrespMain]

/-- One asset whose fetch succeeds (the spec's `a b.mp4`). -/
def c1Video1 : Video := { filename := "a b.mp4", r2SignedUrl := "http://x/a" }

/-- One asset whose fetch answers 404 (the spec's failing second URL). -/
def c1Video2 : Video := { filename := "c.mp4", r2SignedUrl := "http://x/c" }

/-- The fetch environment of the spec's end-to-end example: the first URL
serves bytes with status 200, the second answers 404. -/
def c1Env : Video → FetchOutcome := fun v =>
  if v.r2SignedUrl == "http://x/a" then .response 200 [1, 2] else .response 404 []

/-- The spec's example request body carrying the two assets. -/
def c1Body : ZipRequestBody :=
  { jobId := "job-1", projectId := "proj-1", userId := "user-1", productCode := "PC",
    videos := some [c1Video1, c1Video2], notificationWebhook := none }

/-- Witness for claim C1 at the spec's example: the amended theorem applied to
the two-asset body (one 404 among the fetches) under an always-succeeding
upload oracle for the streaming handler and a 200 upload status for the main
handler. -/
theorem C1_witness_example_run :
    ((generateZip c1Env (fun _ => .success) c1Body).response = .serverError noAssetsMsg
        ↔ ∀ v ∈ c1Body.videos.getD [], (fetchVideo c1Env v).isSuccess = false)
    ∧ ((∃ v ∈ c1Body.videos.getD [], (fetchVideo c1Env v).isSuccess = true) →
        (generateZip c1Env (fun _ => .success) c1Body).response
            = .ok ((c1Body.videos.getD []).filter
                (fun v => (fetchVideo c1Env v).isSuccess)).length
          ∧ (generateZip c1Env (fun _ => .success) c1Body).entries
              = ((c1Body.videos.getD []).filter
                    (fun v => (fetchVideo c1Env v).isSuccess)).map
                  (fun v => (cleanFilename v.filename, (fetchVideo c1Env v).bufferOf)))
    ∧ ((mainGenerateZip c1Env 200 c1Body).response = .serverError noAssetsMsg
        ↔ ∀ v ∈ c1Body.videos.getD [], (fetchVideo c1Env v).isSuccess = false)
    ∧ ((∃ v ∈ c1Body.videos.getD [], (fetchVideo c1Env v).isSuccess = true) →
        (mainGenerateZip c1Env 200 c1Body).response
            = .ok ((c1Body.videos.getD []).filter
                (fun v => (fetchVideo c1Env v).isSuccess)).length
          ∧ (mainGenerateZip c1Env 200 c1Body).fetched = c1Body.videos.getD []) :=
  C1_no_assets_iff_zero_success c1Env (fun _ => .success) 200 c1Body (by decide) rfl
    (by decide)

/-- An asset whose fetch answers 404 in the router counterexample. -/
def c1BadVideo : Video := { filename := "bad.mp4", r2SignedUrl := "http://x/bad" }

/-- An asset whose fetch succeeds in the router counterexample. -/
def c1GoodVideo : Video := { filename := "good.mp4", r2SignedUrl := "http://x/good" }

/-- The router counterexample's fetch environment: `bad.mp4` gets a 404,
everything else succeeds with status 200. -/
def c1RouterEnv : Video → FetchOutcome := fun v =>
  if v.filename == "bad.mp4" then .response 404 [] else .response 200 [7]

/-- Claim C1's counterexample: in the router variant, one fetch succeeds, yet
the job neither succeeds nor fails with the no-assets error — the single 404
aborts the whole run with the thrown per-video error, so the claim's
"whenever at least one fetch succeeds, the job succeeds and proceeds with the
successful subset" is false of that variant. -/
theorem C1_router_aborts_counterexample :
    (fetchVideo c1RouterEnv c1GoodVideo).isSuccess = true
    ∧ routerGenerateZip c1RouterEnv 200 (some [c1BadVideo, c1GoodVideo])
        = .serverError "Falha ao baixar vídeo: bad.mp4" := by
  constructor
  · rfl
  · decide

/-- Claim C2 (amended): the streaming (archiver) archive holds exactly one
entry per successful fetch, in order, named by the sanitized filename and
holding the fetched bytes, so its entry count plus the failure count is the
input count (n − k entries); the JSZip archive of the main handler holds one
entry per success exactly when the sanitized names are collision-free
(colliding names overwrite, last write wins). -/
theorem C2_archive_entry_count (env : Video → FetchOutcome) (videos : List Video) :
    archiveEntries (processBatch env videos)
        = (videos.filter (fun v => (fetchVideo env v).isSuccess)).map
            (fun v => (cleanFilename v.filename, (fetchVideo env v).bufferOf))
    ∧ (archiveEntries (processBatch env videos)).length
        + ((processBatch env videos).filter (fun r => !r.isSuccess)).length
        = videos.length
    ∧ ((((processBatch env videos).filter (fun r => r.isSuccess)).map
          (fun r => cleanFilename r.videoOf.filename)).Nodup →
        (jszipEntries (processBatch env videos)).length
          = ((processBatch env videos).filter (fun r => r.isSuccess)).length) := by
  refine ⟨archiveEntries_processBatch env videos, ?_,
    fun h => jszipEntries_length_of_nodup _ h⟩
  have h1 : (archiveEntries (processBatch env videos)).length
      = ((processBatch env videos).filter (fun r => r.isSuccess)).length := by
    unfold archiveEntries
    rw [List.length_map]
  have hlen : (processBatch env videos).length = videos.length := by
    rw [processBatch_eq_map, List.length_map]
  rw [h1, ← hlen]
  exact length_filter_partition (fun r => r.isSuccess) (processBatch env videos)

/-- First colliding asset of the JSZip counterexample. -/
def c2VideoA : Video := { filename := "a b.mp4", r2SignedUrl := "http://x/1" }

/-- Second colliding asset of the JSZip counterexample: a distinct filename
with the same sanitization `a_b.mp4`. -/
def c2VideoB : Video := { filename := "a?b.mp4", r2SignedUrl := "http://x/2" }

/-- Both counterexample fetches succeed, with distinct bodies. -/
def c2Env : Video → FetchOutcome := fun v =>
  if v.r2SignedUrl == "http://x/1" then .response 200 [1] else .response 200 [2]

/-- Claim C2's counterexample: two successful fetches whose filenames sanitize
to the same `a_b.mp4` leave the JSZip archive with a single entry — the entry
count (1) is not the success count (2), refuting the claim for the JSZip
variants. -/
theorem C2_jszip_collision_counterexample :
    ((processBatch c2Env [c2VideoA, c2VideoB]).filter (fun r => r.isSuccess)).length = 2
    ∧ cleanFilename c2VideoA.filename = cleanFilename c2VideoB.filename
    ∧ (jszipEntries (processBatch c2Env [c2VideoA, c2VideoB])).length = 1 := by
  refine ⟨?_, ?_, ?_⟩ <;> decide

/-- Claim C6: batching neither reorders nor drops settled results — the
aggregate is the plain map over the input in its original order — and the
archive's entries are the input assets in input order with the failed fetches
removed, each under its sanitized name. -/
theorem C6_archive_order (env : Video → FetchOutcome) (videos : List Video) :
    processBatch env videos = videos.map (fetchVideo env)
    ∧ archiveEntries (processBatch env videos)
        = (videos.filter (fun v => (fetchVideo env v).isSuccess)).map
            (fun v => (cleanFilename v.filename, (fetchVideo env v).bufferOf)) :=
  ⟨processBatch_eq_map env videos, archiveEntries_processBatch env videos⟩

end FfmpegNormalizer
